import Mathlib

/-!
Shallow embedding of the analytic computations of `src/app.py` (the GCS
Process Engineering and Operational Excellence dashboard): the funnel
aggregation (`plot_enhanced_funnel`), the control-chart statistics
(`plot_process_control_chart`), the portfolio priority matrix
(`plot_portfolio_priority_matrix`), the labor-mix normalization
(lines 98-99 of `generate_master_data`) and the in-place column
derivations of `plot_talent_capability_matrix`.

Pandas NaN cells are modelled as `Option.none`.  Numeric columns are
exact rationals, except the control chart, whose standard deviation
needs a real square root.
-/

namespace GCS

/-! ## Opportunity pipeline and the funnel computation -/

/-- A row of `pipeline_df`: one opportunity record. -/
structure Opportunity where
  oppId : String
  oppName : String
  sponsorVP : String
  stage : String
  estValue : ℚ
deriving DecidableEq

/-- The canonical funnel stage order used by the `reindex` call in
`plot_enhanced_funnel` (src/app.py line 147). -/
def canonicalStages : List String :=
  ["1. Identification", "2. Validation", "3. Scoping", "4. Approved Backlog"]

/-- Number of opportunities whose `Stage` equals `s`. -/
def nOps (df : List Opportunity) (s : String) : ℕ :=
  (df.filter (fun o => o.stage = s)).length

/-- The `Count` aggregate of `groupby('Stage')` after the `reindex`:
a stage with no matching row is absent from the groupby result, so the
reindex fills its cell with NaN (`none`); otherwise the cell holds the
number of its rows (always positive). -/
def stageCount (df : List Opportunity) (s : String) : Option ℕ :=
  if nOps df s = 0 then none else some (nOps df s)

/-- The `Value` aggregate (sum of `Est_Value_USD_yr`) after the
`reindex`: NaN (`none`) for a stage with no rows, otherwise the sum of
the stage's values. -/
def stageValue (df : List Opportunity) (s : String) : Option ℚ :=
  if nOps df s = 0 then none
  else some (((df.filter (fun o => o.stage = s)).map (fun o => o.estValue)).sum)

/-- One cell of `Count / Count.shift(1) * 100` before the `fillna`:
NaN whenever either operand is NaN.  A zero denominator cannot arise
from `stageCount` (a present stage has a positive count); the `p = 0`
branch records the float behaviour `0 / 0 = NaN` for completeness. -/
def rawConvRate : Option ℕ → Option ℕ → Option ℚ
  | some c, some p => if p = 0 then none else some ((c : ℚ) / (p : ℚ) * 100)
  | _, _ => none

/-- `.fillna(100)` applied to one cell. -/
def fillna100 : Option ℚ → ℚ
  | some q => q
  | none => 100

/-- One output row of the funnel computation (`stage_counts`). -/
structure FunnelRow where
  stage : String
  count : Option ℕ
  value : Option ℚ
  convRate : ℚ
deriving DecidableEq

/-- Builds the funnel rows stage by stage, carrying the previous
stage's count (the `shift(1)` operand; `none` before the first row, as
`shift` fills the first cell with NaN). -/
def funnelRowsAux (df : List Opportunity) : Option ℕ → List String → List FunnelRow
  | _, [] => []
  | prev, s :: rest =>
    { stage := s, count := stageCount df s, value := stageValue df s,
      convRate := fillna100 (rawConvRate (stageCount df s) prev) } ::
      funnelRowsAux df (stageCount df s) rest

/-- `plot_enhanced_funnel` (src/app.py lines 143-162): group the
opportunities by stage, reindex into the canonical stage order, and
attach the stage-to-stage conversion rate column. -/
def plot_enhanced_funnel (df : List Opportunity) : List FunnelRow :=
  funnelRowsAux df none canonicalStages

/-! ## Control-chart statistics -/

/-- `df[metric].mean()` (pandas): NaN (`none`) on an empty series. -/
noncomputable def ccMean (xs : List ℝ) : Option ℝ :=
  if xs.length = 0 then none else some (xs.sum / (xs.length : ℝ))

/-- `df[metric].std()` (pandas sample standard deviation, `ddof = 1`):
NaN (`none`) when there are fewer than two samples. -/
noncomputable def ccStd (xs : List ℝ) : Option ℝ :=
  if xs.length < 2 then none
  else some (Real.sqrt
    ((xs.map (fun x => (x - xs.sum / (xs.length : ℝ)) ^ 2)).sum / ((xs.length : ℝ) - 1)))

/-- `ucl = mean + 3 * std_dev` (src/app.py line 168), NaN-propagating. -/
noncomputable def ccUcl (xs : List ℝ) : Option ℝ :=
  match ccMean xs, ccStd xs with
  | some m, some s => some (m + 3 * s)
  | _, _ => none

/-- `lcl = max(0, mean - 3 * std_dev)` (src/app.py line 169) with the
semantics of the Python builtin `max`: when `mean - 3 * std_dev` is NaN
the comparison `nan > 0` is false and `max` returns its first argument,
the number `0`. -/
noncomputable def ccLcl (xs : List ℝ) : ℝ :=
  match ccMean xs, ccStd xs with
  | some m, some s => max 0 (m - 3 * s)
  | _, _ => 0

/-- Membership in `outliers = df[df[metric] > ucl]` (src/app.py
line 177): a value is flagged as special-cause variation iff it is
strictly greater than the UCL; a comparison against a NaN UCL is false,
so nothing is flagged. -/
noncomputable def ccOutlier (xs : List ℝ) (x : ℝ) : Prop :=
  match ccUcl xs with
  | some u => u < x
  | none => False

/-- A row of `metrics_df` restricted to one metric column. -/
structure MetricRow where
  month : Int
  value : ℚ
deriving DecidableEq

/-- `pd.to_datetime` on a value that is already a datetime is the
identity; every call site passes the datetime `Month` column built by
`generate_master_data`. -/
def to_datetime (t : Int) : Int := t

/-- The effect of `plot_process_control_chart` on its input table
(src/app.py line 165): the in-place reassignment
`df['Month'] = pd.to_datetime(df['Month'])`. -/
def controlChartTable (df : List MetricRow) : List MetricRow :=
  df.map (fun r => { r with month := to_datetime r.month })

/-! ## Portfolio priority matrix -/

inductive Status where
  | onTrack
  | atRisk
  | blocked
deriving DecidableEq

/-- `df['Status'].map({'On Track': ..., 'At Risk': ..., 'Blocked': ...})`
(src/app.py line 118). -/
def statusColor : Status → String
  | .onTrack => "#2e7d32"
  | .atRisk => "#ffc107"
  | .blocked => "#d32f2f"

/-- A row of `initiatives_df`.  `statusColorCol` models the
`Status_Color` column that `plot_portfolio_priority_matrix` assigns in
place (`none` while the column does not exist). -/
structure Initiative where
  initId : String
  initName : String
  lead : String
  roi : ℚ
  status : Status
  percentComplete : ℚ
  statusColorCol : Option String := none
deriving DecidableEq

/-- `.mean()` of a rational column.  (Pandas yields NaN on an empty
column; every claim about the portfolio quantifies over non-empty
collections, where this embedding is faithful.) -/
def qMean (l : List ℚ) : ℚ := l.sum / (l.length : ℚ)

/-- One `fig.add_annotation` record (position and text). -/
structure Annotation where
  x : ℚ
  y : ℚ
  text : String
deriving DecidableEq

/-- The four quadrant annotations (src/app.py lines 137-140), placed
at fixed positions relative to the two averages.  The text is kept
without its HTML bold markup and emoji decoration. -/
def quadAnnotations (a b : ℚ) : List Annotation :=
  [ { x := a * (3 / 2), y := b * (3 / 2), text := "Monitor & Complete" },
    { x := a * (1 / 2), y := b * (3 / 2), text := "Quick Wins" },
    { x := a * (1 / 2), y := b * (1 / 2), text := "Nurture & Develop" },
    { x := a * (3 / 2), y := b * (1 / 2), text := "STRATEGIC FOCUS" } ]

/-- The figure built by `plot_portfolio_priority_matrix`: the scatter
of (ROI, Percent Complete) points, the dashed vertical line at the mean
ROI, the dashed horizontal line at the mean Percent Complete, and the
four quadrant annotations. -/
structure PortfolioFigure where
  points : List (ℚ × ℚ)
  vlineX : ℚ
  hlineY : ℚ
  annotations : List Annotation
deriving DecidableEq

/-- `plot_portfolio_priority_matrix` (src/app.py lines 117-141): adds
the `Status_Color` column to the input table in place, computes the two
average thresholds, and builds the figure.  Returns the figure together
with the table as the function leaves it. -/
def plot_portfolio_priority_matrix (df : List Initiative) :
    PortfolioFigure × List Initiative :=
  let df1 := df.map (fun r => { r with statusColorCol := some (statusColor r.status) })
  let avgRoi := qMean (df1.map (fun r => r.roi))
  let avgComplete := qMean (df1.map (fun r => r.percentComplete))
  ({ points := df1.map (fun r => (r.roi, r.percentComplete)),
     vlineX := avgRoi,
     hlineY := avgComplete,
     annotations := quadAnnotations avgRoi avgComplete },
   df1)

/-- The figure component of `plot_portfolio_priority_matrix`. -/
def portfolioFig (df : List Initiative) : PortfolioFigure :=
  (plot_portfolio_priority_matrix df).1

/-- `df['Expected_Annual_ROI_USD'].mean()` (src/app.py line 119). -/
def avgRoi (df : List Initiative) : ℚ := qMean (df.map (fun r => r.roi))

/-- `df['Percent_Complete'].mean()` (src/app.py line 120). -/
def avgComplete (df : List Initiative) : ℚ := qMean (df.map (fun r => r.percentComplete))

/-- Two points lie strictly on the same side of the vertical line
`x = a` and strictly on the same side of the horizontal line `y = b`. -/
def inSameOpenQuadrant (a b : ℚ) (p q : ℚ × ℚ) : Bool :=
  ((decide (a < p.1) && decide (a < q.1)) || (decide (p.1 < a) && decide (q.1 < a))) &&
    ((decide (b < p.2) && decide (b < q.2)) || (decide (p.2 < b) && decide (q.2 < b)))

/-- The quadrant labels the figure assigns to a plotted point: the
texts of the annotations lying strictly in the same open quadrant
(relative to the two dashed average lines) as the point. -/
def assignedLabels (fig : PortfolioFigure) (p : ℚ × ℚ) : List String :=
  (fig.annotations.filter
    (fun a => inSameOpenQuadrant fig.vlineX fig.hlineY p (a.x, a.y))).map
    (fun a => a.text)

/-! ## Labor-mix normalization -/

/-- One row of the three labor-mix component columns of
`ai_adoption_df`. -/
structure LaborRow where
  manual : ℚ
  aiAssisted : ℚ
  fullyAgentic : ℚ
deriving DecidableEq

/-- `.clip(0)` on the three component columns (src/app.py line 98):
negative values are clamped to zero. -/
def clipRow (r : LaborRow) : LaborRow :=
  { manual := max 0 r.manual, aiAssisted := max 0 r.aiAssisted,
    fullyAgentic := max 0 r.fullyAgentic }

/-- `x.sum()` of one row's components. -/
def rowSum (r : LaborRow) : ℚ := r.manual + r.aiAssisted + r.fullyAgentic

/-- A normalized labor-mix row; `none` models a NaN cell. -/
structure NormLaborRow where
  manual : Option ℚ
  aiAssisted : Option ℚ
  fullyAgentic : Option ℚ
deriving DecidableEq

/-- `x / x.sum() * 100` for one (already clipped) row (src/app.py
line 99).  When the row sum is zero, every clipped component is zero,
so every quotient is the float `0 / 0`, which is NaN (`none`), not a
raised fault. -/
def normalizeRow (r : LaborRow) : NormLaborRow :=
  if rowSum r = 0 then { manual := none, aiAssisted := none, fullyAgentic := none }
  else
    { manual := some (r.manual / rowSum r * 100),
      aiAssisted := some (r.aiAssisted / rowSum r * 100),
      fullyAgentic := some (r.fullyAgentic / rowSum r * 100) }

/-- Lines 98-99 of src/app.py: clip the component columns at zero,
then rescale each row to percentages of its row sum. -/
def ai_adoption_df_norm (rows : List LaborRow) : List NormLaborRow :=
  rows.map (fun r => normalizeRow (clipRow r))

/-! ## Talent and capability matrix -/

/-- A row of `team_df`.  `lssNumericCol` and `clearanceSymbolCol` model
the `LSS_Numeric` and `Clearance_Symbol` columns that
`plot_talent_capability_matrix` assigns in place. -/
structure TeamMember where
  memberName : String
  region : String
  lssBelt : String
  aiSkill : ℚ
  influence : ℚ
  cleared : Bool
  lssNumericCol : Option ℚ := none
  clearanceSymbolCol : Option String := none
deriving DecidableEq

/-- `belt_map` (src/app.py line 191); `.map` over a dict leaves NaN
for a key the dict does not contain. -/
def beltMap : String → Option ℚ
  | "Yellow Belt" => some 1
  | "Green Belt" => some 2
  | "Black Belt" => some 3
  | _ => none

/-- The effect of `plot_talent_capability_matrix` on its input table
(src/app.py lines 190-193): the in-place assignments of the
`LSS_Numeric` and `Clearance_Symbol` columns. -/
def talentMatrixTable (df : List TeamMember) : List TeamMember :=
  df.map (fun r =>
    { r with
      lssNumericCol := beltMap r.lssBelt,
      clearanceSymbolCol := some (if r.cleared then "circle" else "x-thin-open") })

/-! ## Concrete inputs used by scenarios, witnesses and counterexamples -/

/-- An opportunity at stage `s` worth 1000. -/
def mkOpp (s : String) : Opportunity :=
  { oppId := "", oppName := "", sponsorVP := "", stage := s, estValue := 1000 }

/-- An opportunity collection with stage counts `[10, 6, 3, 1]`. -/
def scenarioOps : List Opportunity :=
  List.replicate 10 (mkOpp "1. Identification") ++
    List.replicate 6 (mkOpp "2. Validation") ++
      List.replicate 3 (mkOpp "3. Scoping") ++
        List.replicate 1 (mkOpp "4. Approved Backlog")

/-- A single opportunity sitting at the Scoping stage. -/
def scopingOnly : List Opportunity :=
  [{ oppId := "OPP-001", oppName := "Idea from SRE", sponsorVP := "VP, Platform Eng.",
     stage := "3. Scoping", estValue := 50000 }]

/-- A single opportunity sitting at the Validation stage. -/
def validationOnly : List Opportunity :=
  [{ oppId := "OPP-002", oppName := "Idea from NOC", sponsorVP := "VP, GCS Ops",
     stage := "2. Validation", estValue := 70000 }]

/-- A single opportunity whose stage label is not canonical. -/
def bogusStageOnly : List Opportunity :=
  [{ oppId := "OPP-003", oppName := "Idea from Finance", sponsorVP := "VP, Finance",
     stage := "5. Bogus", estValue := 10000 }]

/-- The two-initiative scenario of the spec:
impact 100 / maturity 80 and impact 300 / maturity 20. -/
def scenarioInits : List Initiative :=
  [ { initId := "P-001", initName := "Automate L1 Incident Triage", lead := "A. Chen",
      roi := 100, status := .onTrack, percentComplete := 80 },
    { initId := "P-002", initName := "Streamline Change Approval Workflow", lead := "B. Singh",
      roi := 300, status := .atRisk, percentComplete := 20 } ]

/-- A portfolio whose middle initiative has impact exactly equal to the
average impact (average ROI 200, average completion 40). -/
def tiePortfolio : List Initiative :=
  [ { initId := "P-003", initName := "Implement Proactive Problem Mgmt", lead := "C. Jones",
      roi := 100, status := .onTrack, percentComplete := 80 },
    { initId := "P-004", initName := "Standardize VM Provisioning", lead := "D. Patel",
      roi := 200, status := .onTrack, percentComplete := 20 },
    { initId := "P-005", initName := "Optimize CMDB Reconciliation", lead := "A. Chen",
      roi := 300, status := .blocked, percentComplete := 20 } ]

/-- An initiative row as delivered by the data provider (no derived
color column yet). -/
def freshInitiative : Initiative :=
  { initId := "P-010", initName := "On-call Scheduling Optimization", lead := "B. Singh",
    roi := 250000, status := .onTrack, percentComplete := 40 }

/-- A team-member row as delivered by the data provider (no derived
columns yet). -/
def freshMember : TeamMember :=
  { memberName := "E. Williams", region := "AMER", lssBelt := "Yellow Belt",
    aiSkill := 2, influence := 3, cleared := true }

/-- A metric series of eleven values -100 and one value -40 (length 12). -/
noncomputable def negSeries : List ℝ :=
  List.replicate 11 (-100) ++ [-40]

/-! ## Spec-side formulas (for comparison with the code) -/

/-- The arithmetic mean exactly as section 4.1 of the spec words it,
for comparison with the code's `ccMean`. -/
noncomputable def specMean (xs : List ℝ) : ℝ := xs.sum / (xs.length : ℝ)

/-- The sample standard deviation (divide by n - 1) exactly as
section 4.1 of the spec words it, for comparison with the code's
`ccStd`. -/
noncomputable def specStd (xs : List ℝ) : ℝ :=
  Real.sqrt ((xs.map (fun x => (x - specMean xs) ^ 2)).sum / ((xs.length : ℝ) - 1))

/-! ## Shared lemmas about the funnel computation -/

theorem rawConvRate_none_right (c : Option ℕ) : rawConvRate c none = none := by
  cases c <;> rfl

/-- Closed form of one conversion-rate cell: 100 whenever either
aggregate count is NaN (prior stage or current stage empty), otherwise
the ratio of the two counts times 100. -/
theorem convRateCell (df : List Opportunity) (s t : String) :
    fillna100 (rawConvRate (stageCount df t) (stageCount df s)) =
      if nOps df s = 0 ∨ nOps df t = 0 then 100
      else (nOps df t : ℚ) / (nOps df s : ℚ) * 100 := by
  by_cases hs : nOps df s = 0 <;> by_cases ht : nOps df t = 0 <;>
    simp [stageCount, hs, ht, rawConvRate, fillna100]

/-- Closed form of the four funnel rows. -/
theorem funnel_rows (df : List Opportunity) :
    plot_enhanced_funnel df = [
      { stage := "1. Identification", count := stageCount df "1. Identification",
        value := stageValue df "1. Identification", convRate := 100 },
      { stage := "2. Validation", count := stageCount df "2. Validation",
        value := stageValue df "2. Validation",
        convRate :=
          if nOps df "1. Identification" = 0 ∨ nOps df "2. Validation" = 0 then 100
          else (nOps df "2. Validation" : ℚ) / (nOps df "1. Identification" : ℚ) * 100 },
      { stage := "3. Scoping", count := stageCount df "3. Scoping",
        value := stageValue df "3. Scoping",
        convRate :=
          if nOps df "2. Validation" = 0 ∨ nOps df "3. Scoping" = 0 then 100
          else (nOps df "3. Scoping" : ℚ) / (nOps df "2. Validation" : ℚ) * 100 },
      { stage := "4. Approved Backlog", count := stageCount df "4. Approved Backlog",
        value := stageValue df "4. Approved Backlog",
        convRate :=
          if nOps df "3. Scoping" = 0 ∨ nOps df "4. Approved Backlog" = 0 then 100
          else (nOps df "4. Approved Backlog" : ℚ) / (nOps df "3. Scoping" : ℚ) * 100 } ] := by
  simp only [plot_enhanced_funnel, canonicalStages, funnelRowsAux, rawConvRate_none_right,
    convRateCell]
  rfl

theorem nOps_scenario :
    nOps scenarioOps "1. Identification" = 10 ∧ nOps scenarioOps "2. Validation" = 6 ∧
      nOps scenarioOps "3. Scoping" = 3 ∧ nOps scenarioOps "4. Approved Backlog" = 1 := by
  decide

theorem nOps_scoping :
    nOps scopingOnly "1. Identification" = 0 ∧ nOps scopingOnly "2. Validation" = 0 ∧
      nOps scopingOnly "3. Scoping" = 1 ∧ nOps scopingOnly "4. Approved Backlog" = 0 := by
  decide

theorem nOps_cons (o : Opportunity) (ops : List Opportunity) (s : String) :
    nOps (o :: ops) s = (if o.stage = s then 1 else 0) + nOps ops s := by
  by_cases h : o.stage = s <;> simp [nOps, List.filter_cons, h, Nat.add_comm]

/-- Opportunities at a canonical stage are counted by exactly one of the
four per-stage aggregates; opportunities at any other stage are counted
by none of them. -/
theorem counts_partition (ops : List Opportunity) :
    (canonicalStages.map (fun s => nOps ops s)).sum =
      (ops.filter (fun o => o.stage ∈ canonicalStages)).length := by
  induction ops with
  | nil => rfl
  | cons o rest ih =>
    simp only [canonicalStages, List.map, List.sum_cons, nOps_cons, List.filter_cons,
      List.mem_cons, List.mem_singleton, List.not_mem_nil] at *
    by_cases h1 : o.stage = "1. Identification" <;>
      by_cases h2 : o.stage = "2. Validation" <;>
        by_cases h3 : o.stage = "3. Scoping" <;>
          by_cases h4 : o.stage = "4. Approved Backlog" <;>
            simp_all <;> omega

/-! ## Funnel permutation invariance -/

theorem nOps_perm {df1 df2 : List Opportunity} (h : List.Perm df1 df2) (s : String) :
    nOps df1 s = nOps df2 s :=
  (h.filter _).length_eq

theorem stageCount_perm {df1 df2 : List Opportunity} (h : List.Perm df1 df2) (s : String) :
    stageCount df1 s = stageCount df2 s := by
  unfold stageCount
  rw [nOps_perm h]

theorem stageValue_perm {df1 df2 : List Opportunity} (h : List.Perm df1 df2) (s : String) :
    stageValue df1 s = stageValue df2 s := by
  unfold stageValue
  rw [nOps_perm h, List.Perm.sum_eq (List.Perm.map _ (List.Perm.filter _ h))]

theorem funnelRowsAux_perm {df1 df2 : List Opportunity} (h : List.Perm df1 df2)
    (prev : Option ℕ) (stages : List String) :
    funnelRowsAux df1 prev stages = funnelRowsAux df2 prev stages := by
  induction stages generalizing prev with
  | nil => rfl
  | cons s rest ih =>
    simp only [funnelRowsAux, stageCount_perm h, stageValue_perm h, ih]

/-! ## Claim theorems for the funnel -/

/-- C2 counterexample: for a collection holding a single opportunity at
the Scoping stage, the Approved Backlog row has prior-stage count 1 > 0
and own count 0, so the claim demands conversion rate (0 / 1) * 100 = 0;
and the Validation row has prior-stage count 0, so the claim demands a
null rate; the code instead outputs 100 in every row, because the NaN
cells produced by the reindex propagate through the division and are
then replaced by `fillna(100)`. -/
theorem c2_counterexample :
    nOps scopingOnly "3. Scoping" = 1 ∧ nOps scopingOnly "4. Approved Backlog" = 0 ∧
      nOps scopingOnly "1. Identification" = 0 ∧
      (plot_enhanced_funnel scopingOnly).map (fun r => r.convRate) = [100, 100, 100, 100] ∧
      (0 : ℚ) / 1 * 100 ≠ 100 := by
  refine ⟨nOps_scoping.2.2.1, nOps_scoping.2.2.2, nOps_scoping.1, ?_, by norm_num⟩
  rw [funnel_rows]
  norm_num [nOps_scoping.1, nOps_scoping.2.1, nOps_scoping.2.2.1, nOps_scoping.2.2.2]

/-- C2 (amended): stage 0's conversion rate is exactly 100; for stage
i > 0, if stage i and stage i-1 both hold at least one opportunity the
rate is (count[i] / count[i-1]) * 100; if stage i or stage i-1 holds no
opportunity the rate is 100 — the NaN aggregate left by the reindex
propagates through the division and `fillna(100)` replaces it — so it is
neither a null sentinel nor a division fault.  Stage counts
[10, 6, 3, 1] yield rates [100, 60, 50, 33.33...]. -/
theorem c2_conversion_rates :
    (∀ df : List Opportunity,
      (plot_enhanced_funnel df).map (fun r => r.convRate) =
        [100,
         if nOps df "1. Identification" = 0 ∨ nOps df "2. Validation" = 0 then 100
         else (nOps df "2. Validation" : ℚ) / (nOps df "1. Identification" : ℚ) * 100,
         if nOps df "2. Validation" = 0 ∨ nOps df "3. Scoping" = 0 then 100
         else (nOps df "3. Scoping" : ℚ) / (nOps df "2. Validation" : ℚ) * 100,
         if nOps df "3. Scoping" = 0 ∨ nOps df "4. Approved Backlog" = 0 then 100
         else (nOps df "4. Approved Backlog" : ℚ) / (nOps df "3. Scoping" : ℚ) * 100]) ∧
      (plot_enhanced_funnel scenarioOps).map (fun r => r.convRate) = [100, 60, 50, 100 / 3] := by
  constructor
  · intro df
    rw [funnel_rows]
    rfl
  · rw [funnel_rows]
    norm_num [nOps_scenario.1, nOps_scenario.2.1, nOps_scenario.2.2.1, nOps_scenario.2.2.2]

/-- C3 counterexample: for a collection holding a single opportunity at
the Validation stage, the three empty canonical stages get NaN (`none`)
count and value cells from the reindex, not count 0 and value 0 as the
claim states. -/
theorem c3_counterexample :
    (plot_enhanced_funnel validationOnly).map (fun r => r.count) =
        [none, some 1, none, none] ∧
      (plot_enhanced_funnel validationOnly).map (fun r => r.count) ≠
        [some 0, some 1, some 0, some 0] ∧
      (plot_enhanced_funnel validationOnly).map (fun r => r.value) =
        [none, some 70000, none, none] := by
  refine ⟨by decide, by decide, ?_⟩
  rw [funnel_rows]
  have h0 : nOps validationOnly "1. Identification" = 0 := by decide
  have h1 : nOps validationOnly "2. Validation" = 1 := by decide
  have h2 : nOps validationOnly "3. Scoping" = 0 := by decide
  have h3 : nOps validationOnly "4. Approved Backlog" = 0 := by decide
  have hf : validationOnly.filter (fun o => o.stage = "2. Validation") = validationOnly := by
    decide
  have hv : (validationOnly.map (fun o => o.estValue)).sum = 70000 := by
    norm_num [validationOnly]
  norm_num [stageValue, h0, h1, h2, h3, hf, hv]

/-- C3 (amended): the funnel output rows appear in the canonical stage
order with every canonical stage present; a canonical stage with at
least one opportunity carries the count and summed value of its group,
while a canonical stage with no opportunity carries NaN (`none`) count
and NaN value — not count 0 and value 0. -/
theorem c3_funnel_grouping (df : List Opportunity) :
    (plot_enhanced_funnel df).map (fun r => r.stage) = canonicalStages ∧
      (plot_enhanced_funnel df).map (fun r => r.count) =
        canonicalStages.map (fun s =>
          if (df.filter (fun o => o.stage = s)).length = 0 then none
          else some (df.filter (fun o => o.stage = s)).length) ∧
      (plot_enhanced_funnel df).map (fun r => r.value) =
        canonicalStages.map (fun s =>
          if (df.filter (fun o => o.stage = s)).length = 0 then none
          else some (((df.filter (fun o => o.stage = s)).map (fun o => o.estValue)).sum)) := by
  rw [funnel_rows]
  refine ⟨rfl, ?_, ?_⟩ <;> simp [canonicalStages, stageCount, stageValue, nOps]

/-- C10: the funnel output (stages, counts, values and conversion
rates) is invariant under any permutation of the opportunity rows. -/
theorem c10_funnel_perm_invariant (df1 df2 : List Opportunity) (h : List.Perm df1 df2) :
    plot_enhanced_funnel df1 = plot_enhanced_funnel df2 :=
  funnelRowsAux_perm h none canonicalStages

theorem c10_witness :
    List.Perm [mkOpp "2. Validation", mkOpp "1. Identification"]
        [mkOpp "1. Identification", mkOpp "2. Validation"] ∧
      plot_enhanced_funnel [mkOpp "2. Validation", mkOpp "1. Identification"] =
        plot_enhanced_funnel [mkOpp "1. Identification", mkOpp "2. Validation"] :=
  ⟨List.Perm.swap _ _ _,
    c10_funnel_perm_invariant _ _ (List.Perm.swap _ _ _)⟩

/-- C7 counterexample: an opportunity whose stage label is not one of
the four canonical stages is silently dropped by the funnel
aggregation: it is counted by no per-stage aggregate (their total is 0
although the collection has 1 row), every output cell is NaN, and no
failure of any kind is produced. -/
theorem c7_counterexample :
    bogusStageOnly.length = 1 ∧
      (canonicalStages.map (fun s => nOps bogusStageOnly s)).sum = 0 ∧
      (plot_enhanced_funnel bogusStageOnly).map (fun r => r.count) =
        [none, none, none, none] := by
  decide

/-- C7 (amended): there is no `InvalidRange` failure anywhere in the
code; the per-stage counts account exactly for the opportunities whose
stage label is canonical, so a row with a non-canonical label is
silently dropped from the funnel aggregation; and the portfolio
computation plots every initiative as-is regardless of whether its
percent-complete value lies in [0, 100] (no report, no clamp, no
drop). -/
theorem c7_rows_accounting (ops : List Opportunity) (df : List Initiative) :
    (canonicalStages.map (fun s => nOps ops s)).sum =
        (ops.filter (fun o => o.stage ∈ canonicalStages)).length ∧
      (portfolioFig df).points = df.map (fun r => (r.roi, r.percentComplete)) :=
  ⟨counts_partition ops, by simp [portfolioFig, plot_portfolio_priority_matrix]⟩

/-! ## Claim theorems for the labor-mix normalization -/

/-- C5 counterexample: for the all-zero composition row, the normalized
components are all NaN (`none`) — the float quotients `0 / 0` — and in
particular they are not all zero as the claim states. -/
theorem c5_counterexample :
    normalizeRow (clipRow { manual := 0, aiAssisted := 0, fullyAgentic := 0 }) =
        { manual := none, aiAssisted := none, fullyAgentic := none } ∧
      normalizeRow (clipRow { manual := 0, aiAssisted := 0, fullyAgentic := 0 }) ≠
        { manual := some 0, aiAssisted := some 0, fullyAgentic := some 0 } := by
  have h : normalizeRow (clipRow { manual := 0, aiAssisted := 0, fullyAgentic := 0 }) =
      { manual := none, aiAssisted := none, fullyAgentic := none } := by
    norm_num [normalizeRow, clipRow, rowSum]
  exact ⟨h, by rw [h]; simp⟩

/-- C5 (amended): for every composition row whose clipped component sum
is zero, every normalized component is NaN (`none`) — the total
function returns a row of NaN cells rather than raising a division
fault, but the cells are not the number 0. -/
theorem c5_zero_row (r : LaborRow) (h : rowSum (clipRow r) = 0) :
    normalizeRow (clipRow r) =
      { manual := none, aiAssisted := none, fullyAgentic := none } := by
  simp [normalizeRow, h]

theorem c5_zero_row_witness :
    rowSum (clipRow { manual := -3, aiAssisted := 0, fullyAgentic := -2 }) = 0 ∧
      normalizeRow (clipRow { manual := -3, aiAssisted := 0, fullyAgentic := -2 }) =
        { manual := none, aiAssisted := none, fullyAgentic := none } :=
  ⟨by norm_num [rowSum, clipRow], c5_zero_row _ (by norm_num [rowSum, clipRow])⟩

/-- C4: for every composition row whose clipped component sum is
strictly positive, each normalized component is rawValue / rowSum * 100
and the normalized components sum to exactly 100, hence in particular
to 100 within a relative error of 1e-9. -/
theorem c4_normalization (r : LaborRow) (h : 0 < rowSum (clipRow r)) :
    normalizeRow (clipRow r) =
        { manual := some ((clipRow r).manual / rowSum (clipRow r) * 100),
          aiAssisted := some ((clipRow r).aiAssisted / rowSum (clipRow r) * 100),
          fullyAgentic := some ((clipRow r).fullyAgentic / rowSum (clipRow r) * 100) } ∧
      (clipRow r).manual / rowSum (clipRow r) * 100 +
          (clipRow r).aiAssisted / rowSum (clipRow r) * 100 +
          (clipRow r).fullyAgentic / rowSum (clipRow r) * 100 = 100 ∧
      |(clipRow r).manual / rowSum (clipRow r) * 100 +
          (clipRow r).aiAssisted / rowSum (clipRow r) * 100 +
          (clipRow r).fullyAgentic / rowSum (clipRow r) * 100 - 100| ≤ 100 * (1 / 10 ^ 9) := by
  have hne : rowSum (clipRow r) ≠ 0 := ne_of_gt h
  have hsum : (clipRow r).manual + (clipRow r).aiAssisted + (clipRow r).fullyAgentic =
      rowSum (clipRow r) := rfl
  have key : (clipRow r).manual / rowSum (clipRow r) * 100 +
      (clipRow r).aiAssisted / rowSum (clipRow r) * 100 +
      (clipRow r).fullyAgentic / rowSum (clipRow r) * 100 = 100 := by
    field_simp
    linarith [hsum]
  refine ⟨by simp [normalizeRow, hne], key, ?_⟩
  rw [key]
  norm_num

theorem c4_witness :
    0 < rowSum (clipRow { manual := 50, aiAssisted := 30, fullyAgentic := 20 }) ∧
      (clipRow { manual := 50, aiAssisted := 30, fullyAgentic := 20 }).manual /
            rowSum (clipRow { manual := 50, aiAssisted := 30, fullyAgentic := 20 }) * 100 +
          (clipRow { manual := 50, aiAssisted := 30, fullyAgentic := 20 }).aiAssisted /
            rowSum (clipRow { manual := 50, aiAssisted := 30, fullyAgentic := 20 }) * 100 +
          (clipRow { manual := 50, aiAssisted := 30, fullyAgentic := 20 }).fullyAgentic /
            rowSum (clipRow { manual := 50, aiAssisted := 30, fullyAgentic := 20 }) * 100 = 100 :=
  ⟨by norm_num [rowSum, clipRow],
    (c4_normalization { manual := 50, aiAssisted := 30, fullyAgentic := 20 }
      (by norm_num [rowSum, clipRow])).2.1⟩

/-! ## Lemmas about the portfolio figure -/

theorem portfolioTable_eq (df : List Initiative) :
    (plot_portfolio_priority_matrix df).2 =
      df.map (fun r => { r with statusColorCol := some (statusColor r.status) }) :=
  rfl

theorem portfolioFig_eq (df : List Initiative) :
    portfolioFig df =
      { points := df.map (fun r => (r.roi, r.percentComplete)),
        vlineX := avgRoi df, hlineY := avgComplete df,
        annotations := quadAnnotations (avgRoi df) (avgComplete df) } := by
  have hroi : ((fun r : Initiative => r.roi) ∘ fun r : Initiative =>
      { r with statusColorCol := some (statusColor r.status) }) =
        fun r : Initiative => r.roi := rfl
  have hpc : ((fun r : Initiative => r.percentComplete) ∘ fun r : Initiative =>
      { r with statusColorCol := some (statusColor r.status) }) =
        fun r : Initiative => r.percentComplete := rfl
  simp [portfolioFig, plot_portfolio_priority_matrix, avgRoi, avgComplete, qMean,
    List.map_map, hroi, hpc]

/-- Evaluation of the label assignment induced by the four quadrant
annotations, for positive thresholds: a point strictly inside a
quadrant receives exactly the label of that quadrant's annotation, and
a point on either average line receives no label. -/
theorem assignedLabels_cases (pts : List (ℚ × ℚ)) (a b : ℚ) (ha : 0 < a) (hb : 0 < b)
    (p : ℚ × ℚ) :
    (a < p.1 → p.2 < b →
        assignedLabels (⟨pts, a, b, quadAnnotations a b⟩ : PortfolioFigure) p = ["STRATEGIC FOCUS"]) ∧
      (a < p.1 → b < p.2 →
        assignedLabels (⟨pts, a, b, quadAnnotations a b⟩ : PortfolioFigure) p = ["Monitor & Complete"]) ∧
      (p.1 < a → b < p.2 →
        assignedLabels (⟨pts, a, b, quadAnnotations a b⟩ : PortfolioFigure) p = ["Quick Wins"]) ∧
      (p.1 < a → p.2 < b →
        assignedLabels (⟨pts, a, b, quadAnnotations a b⟩ : PortfolioFigure) p = ["Nurture & Develop"]) ∧
      (p.1 = a ∨ p.2 = b →
        assignedLabels (⟨pts, a, b, quadAnnotations a b⟩ : PortfolioFigure) p = []) := by
  have hxa : a < a * (3 / 2) := by linarith
  have hxb : a * (2 : ℚ)⁻¹ < a := by linarith
  have hxc : ¬ a * (3 / 2) < a := by linarith
  have hxd : ¬ a < a * (2 : ℚ)⁻¹ := by linarith
  have hya : b < b * (3 / 2) := by linarith
  have hyb : b * (2 : ℚ)⁻¹ < b := by linarith
  have hyc : ¬ b * (3 / 2) < b := by linarith
  have hyd : ¬ b < b * (2 : ℚ)⁻¹ := by linarith
  refine ⟨fun h1 h2 => ?_, fun h1 h2 => ?_, fun h1 h2 => ?_, fun h1 h2 => ?_, fun h => ?_⟩
  · have n1 : ¬ p.1 < a := by linarith
    have n2 : ¬ b < p.2 := by linarith
    simp [assignedLabels, quadAnnotations, inSameOpenQuadrant, List.filter,
      hxa, hxb, hxc, hxd, hya, hyb, hyc, hyd, h1, h2, n1, n2]
  · have n1 : ¬ p.1 < a := by linarith
    have n2 : ¬ p.2 < b := by linarith
    simp [assignedLabels, quadAnnotations, inSameOpenQuadrant, List.filter,
      hxa, hxb, hxc, hxd, hya, hyb, hyc, hyd, h1, h2, n1, n2]
  · have n1 : ¬ a < p.1 := by linarith
    have n2 : ¬ p.2 < b := by linarith
    simp [assignedLabels, quadAnnotations, inSameOpenQuadrant, List.filter,
      hxa, hxb, hxc, hxd, hya, hyb, hyc, hyd, h1, h2, n1, n2]
  · have n1 : ¬ a < p.1 := by linarith
    have n2 : ¬ b < p.2 := by linarith
    simp [assignedLabels, quadAnnotations, inSameOpenQuadrant, List.filter,
      hxa, hxb, hxc, hxd, hya, hyb, hyc, hyd, h1, h2, n1, n2]
  · rcases h with h | h
    · have n1 : ¬ a < p.1 := by rw [h]; exact lt_irrefl a
      have n2 : ¬ p.1 < a := by rw [h]; exact lt_irrefl a
      simp [assignedLabels, quadAnnotations, inSameOpenQuadrant, List.filter, n1, n2]
    · have n1 : ¬ b < p.2 := by rw [h]; exact lt_irrefl b
      have n2 : ¬ p.2 < b := by rw [h]; exact lt_irrefl b
      simp [assignedLabels, quadAnnotations, inSameOpenQuadrant, List.filter, n1, n2]

/-! ## Claim theorems for the portfolio priority matrix -/

/-- C6 counterexample: in a portfolio with ROIs 100, 200, 300 (average
200) and completions 80, 20, 20 (average 40), the initiative plotted at
(200, 20) has impact exactly equal to the average impact and maturity
below the average.  The claim's tie rule demands the "Strategic Focus"
quadrant; the figure assigns the point no quadrant label at all — it
lies on the dashed average line, strictly inside no quadrant. -/
theorem c6_counterexample :
    avgRoi tiePortfolio = 200 ∧ avgComplete tiePortfolio = 40 ∧
      ((200 : ℚ), (20 : ℚ)) ∈ (portfolioFig tiePortfolio).points ∧
      assignedLabels (portfolioFig tiePortfolio) (200, 20) = [] := by
  have hr : avgRoi tiePortfolio = 200 := by
    norm_num [avgRoi, qMean, tiePortfolio]
  have hc : avgComplete tiePortfolio = 40 := by
    norm_num [avgComplete, qMean, tiePortfolio]
  refine ⟨hr, hc, ?_, ?_⟩
  · rw [portfolioFig_eq]
    simp [tiePortfolio]
  · rw [portfolioFig_eq, hr, hc]
    exact (assignedLabels_cases _ 200 40 (by norm_num) (by norm_num) (200, 20)).2.2.2.2
      (Or.inl rfl)

/-- C6 (amended): the figure's two thresholds are the mean ROI and the
mean percent-complete, and every initiative is plotted at its
(impact, maturity) point.  A point strictly on the high-impact,
low-maturity side of both average lines lies in the quadrant labelled
"Strategic Focus", and correspondingly for the other three strict
quadrants; but a point whose impact or maturity is exactly equal to the
average lies on a quadrant boundary and receives no label — no tie
resolution toward a "greater or equal" branch exists in the code. -/
theorem c6_portfolio_quadrants (df : List Initiative) (p : ℚ × ℚ)
    (ha : 0 < avgRoi df) (hb : 0 < avgComplete df) :
    (portfolioFig df).vlineX = avgRoi df ∧
      (portfolioFig df).hlineY = avgComplete df ∧
      (portfolioFig df).points = df.map (fun r => (r.roi, r.percentComplete)) ∧
      (avgRoi df < p.1 → p.2 < avgComplete df →
        assignedLabels (portfolioFig df) p = ["STRATEGIC FOCUS"]) ∧
      (avgRoi df < p.1 → avgComplete df < p.2 →
        assignedLabels (portfolioFig df) p = ["Monitor & Complete"]) ∧
      (p.1 < avgRoi df → avgComplete df < p.2 →
        assignedLabels (portfolioFig df) p = ["Quick Wins"]) ∧
      (p.1 < avgRoi df → p.2 < avgComplete df →
        assignedLabels (portfolioFig df) p = ["Nurture & Develop"]) ∧
      ((p.1 = avgRoi df ∨ p.2 = avgComplete df) →
        assignedLabels (portfolioFig df) p = []) := by
  rw [portfolioFig_eq]
  have hcases := assignedLabels_cases (df.map (fun r => (r.roi, r.percentComplete)))
    (avgRoi df) (avgComplete df) ha hb p
  exact ⟨rfl, rfl, rfl, hcases.1, hcases.2.1, hcases.2.2.1, hcases.2.2.2.1, hcases.2.2.2.2⟩

theorem c6_witness :
    0 < avgRoi scenarioInits ∧ 0 < avgComplete scenarioInits ∧
      assignedLabels (portfolioFig scenarioInits) (100, 80) = ["Quick Wins"] ∧
      assignedLabels (portfolioFig scenarioInits) (300, 20) = ["STRATEGIC FOCUS"] := by
  have hr : avgRoi scenarioInits = 200 := by
    norm_num [avgRoi, qMean, scenarioInits]
  have hc : avgComplete scenarioInits = 50 := by
    norm_num [avgComplete, qMean, scenarioInits]
  have h1 : 0 < avgRoi scenarioInits := by rw [hr]; norm_num
  have h2 : 0 < avgComplete scenarioInits := by rw [hc]; norm_num
  refine ⟨h1, h2, ?_, ?_⟩
  · exact (c6_portfolio_quadrants scenarioInits (100, 80) h1 h2).2.2.2.2.2.1
      (by rw [hr]; norm_num) (by rw [hc]; norm_num)
  · exact (c6_portfolio_quadrants scenarioInits (300, 20) h1 h2).2.2.2.1
      (by rw [hr]; norm_num) (by rw [hc]; norm_num)

/-! ## Claim theorems about input mutation (frame effects) -/

theorem erase_statusColor (r : Initiative) (h : r.statusColorCol = none) :
    { r with statusColorCol := none } = r := by
  cases r
  simp_all

theorem erase_talentCols (r : TeamMember)
    (h : r.lssNumericCol = none ∧ r.clearanceSymbolCol = none) :
    { r with lssNumericCol := none, clearanceSymbolCol := none } = r := by
  cases r
  simp_all

/-- C9 counterexample: both `plot_portfolio_priority_matrix` and
`plot_talent_capability_matrix` hand back an input table that differs
from the one they were given: the first has added a `Status_Color`
field to every initiative record, the second has added `LSS_Numeric`
and `Clearance_Symbol` fields to every team-member record. -/
theorem c9_counterexample :
    (plot_portfolio_priority_matrix [freshInitiative]).2 ≠ [freshInitiative] ∧
      talentMatrixTable [freshMember] ≠ [freshMember] := by
  constructor <;> decide

/-- C9 (amended): the control-chart call rewrites the `Month` column
with `pd.to_datetime`, which leaves the values unchanged on the
datetime input it always receives; the portfolio and talent calls do
mutate their input tables, but only by attaching derived columns
(`Status_Color`; `LSS_Numeric` and `Clearance_Symbol`): erasing the
attached columns recovers the input exactly, so all pre-existing fields
and values are preserved. -/
theorem c9_inputs_preserved (dfm : List MetricRow) (dfi : List Initiative)
    (dft : List TeamMember)
    (hi : ∀ r ∈ dfi, r.statusColorCol = none)
    (ht : ∀ r ∈ dft, r.lssNumericCol = none ∧ r.clearanceSymbolCol = none) :
    controlChartTable dfm = dfm ∧
      ((plot_portfolio_priority_matrix dfi).2).map
          (fun r => { r with statusColorCol := none }) = dfi ∧
      (talentMatrixTable dft).map
          (fun r => { r with lssNumericCol := none, clearanceSymbolCol := none }) = dft := by
  refine ⟨?_, ?_, ?_⟩
  · show dfm.map (fun r => r) = dfm
    exact List.map_id dfm
  · rw [portfolioTable_eq, List.map_map]
    induction dfi with
    | nil => rfl
    | cons r rest ih =>
      simp only [List.map_cons, Function.comp]
      rw [erase_statusColor r (hi r (by simp)), ih (fun x hx => hi x (by simp [hx]))]
  · unfold talentMatrixTable
    rw [List.map_map]
    induction dft with
    | nil => rfl
    | cons r rest ih =>
      simp only [List.map_cons, Function.comp]
      rw [erase_talentCols r (ht r (by simp)), ih (fun x hx => ht x (by simp [hx]))]

theorem c9_witness :
    (∀ r ∈ [freshInitiative], r.statusColorCol = none) ∧
      (∀ r ∈ [freshMember], r.lssNumericCol = none ∧ r.clearanceSymbolCol = none) ∧
      ((plot_portfolio_priority_matrix [freshInitiative]).2).map
          (fun r => { r with statusColorCol := none }) = [freshInitiative] ∧
      (talentMatrixTable [freshMember]).map
          (fun r => { r with lssNumericCol := none, clearanceSymbolCol := none }) =
        [freshMember] := by
  have h := c9_inputs_preserved [{ month := 0, value := 5 }] [freshInitiative] [freshMember]
    (by intro r hr; simp at hr; rw [hr]; rfl)
    (by intro r hr; simp at hr; rw [hr]; exact ⟨rfl, rfl⟩)
  exact ⟨by intro r hr; simp at hr; rw [hr]; rfl,
    by intro r hr; simp at hr; rw [hr]; exact ⟨rfl, rfl⟩, h.2.1, h.2.2⟩

/-! ## Claim theorems for the control chart -/

theorem negSeries_length : negSeries.length = 12 := by
  simp [negSeries]

theorem negSeries_sum : negSeries.sum = -1140 := by
  simp [negSeries, List.sum_append, List.sum_replicate, nsmul_eq_mul]
  norm_num

theorem negSeries_variance :
    (negSeries.map (fun x => (x - negSeries.sum / (negSeries.length : ℝ)) ^ 2)).sum /
      ((negSeries.length : ℝ) - 1) = 300 := by
  rw [negSeries_sum, negSeries_length]
  norm_num [negSeries, List.map_append, List.map_replicate, List.sum_append,
    List.sum_replicate, nsmul_eq_mul]

theorem negSeries_std : ccStd negSeries = some (Real.sqrt 300) := by
  unfold ccStd
  rw [if_neg (by rw [negSeries_length]; norm_num), negSeries_variance]

theorem negSeries_mean : ccMean negSeries = some (-95) := by
  unfold ccMean
  rw [if_neg (by rw [negSeries_length]; norm_num), negSeries_sum, negSeries_length]
  norm_num

theorem negSeries_ucl : ccUcl negSeries = some (-95 + 3 * Real.sqrt 300) := by
  unfold ccUcl
  rw [negSeries_mean, negSeries_std]

/-- C1 counterexample: in the length-12 series of eleven values -100
and one value -40, the mean is -95 and the sample standard deviation is
sqrt 300, so UCL = -95 + 3 * sqrt 300 < -40 while LCL = max(0, ...) = 0.
The sample -40 is below the lower control limit yet it is flagged as an
outlier, contradicting the claim that values below the lower control
limit are never flagged. -/
theorem c1_counterexample :
    negSeries.length = 12 ∧ (-40 : ℝ) ∈ negSeries ∧ ccLcl negSeries = 0 ∧
      (-40 : ℝ) < ccLcl negSeries ∧ ccOutlier negSeries (-40) := by
  have hsqrt : Real.sqrt 300 < 55 / 3 :=
    (Real.sqrt_lt' (by norm_num)).mpr (by norm_num)
  have hlcl : ccLcl negSeries = 0 := by
    unfold ccLcl
    rw [negSeries_mean, negSeries_std]
    exact max_eq_left (by have := Real.sqrt_nonneg (300 : ℝ); linarith)
  refine ⟨negSeries_length, by simp [negSeries], hlcl, by rw [hlcl]; norm_num, ?_⟩
  unfold ccOutlier
  rw [negSeries_ucl]
  show -95 + 3 * Real.sqrt 300 < -40
  linarith

/-- C1 (amended): for every series of length at least 2, the mean is
the arithmetic mean, the standard deviation is the sample standard
deviation (divide by n - 1), UCL = mean + 3 * std,
LCL = max(0, mean - 3 * std) (hence LCL is always non-negative), and a
sample is flagged iff its value is strictly greater than the UCL.
Consequently a non-negative value below the LCL is never flagged; a
negative value below the LCL can still be flagged when mean + 3 * std
is itself negative (UCL below LCL), as the counterexample shows, so the
claim's unconditional "below-LCL values are never flagged" holds only
on the non-negative data the spec describes. -/
theorem c1_control_chart (xs : List ℝ) (h : 2 ≤ xs.length) :
    ccMean xs = some (specMean xs) ∧
      ccStd xs = some (specStd xs) ∧
      ccUcl xs = some (specMean xs + 3 * specStd xs) ∧
      ccLcl xs = max 0 (specMean xs - 3 * specStd xs) ∧
      0 ≤ ccLcl xs ∧
      (∀ x : ℝ, ccOutlier xs x ↔ specMean xs + 3 * specStd xs < x) ∧
      (∀ x ∈ xs, 0 ≤ x → x < ccLcl xs → ¬ ccOutlier xs x) := by
  have h0 : ¬ xs.length = 0 := by omega
  have h2 : ¬ xs.length < 2 := by omega
  have hm : ccMean xs = some (specMean xs) := by
    unfold ccMean specMean
    rw [if_neg h0]
  have hs : ccStd xs = some (specStd xs) := by
    unfold ccStd specStd specMean
    rw [if_neg h2]
  have hu : ccUcl xs = some (specMean xs + 3 * specStd xs) := by
    unfold ccUcl
    rw [hm, hs]
  have hl : ccLcl xs = max 0 (specMean xs - 3 * specStd xs) := by
    unfold ccLcl
    rw [hm, hs]
  have hstd0 : 0 ≤ specStd xs := Real.sqrt_nonneg _
  have hout : ∀ x : ℝ, ccOutlier xs x ↔ specMean xs + 3 * specStd xs < x := by
    intro x
    unfold ccOutlier
    rw [hu]
  refine ⟨hm, hs, hu, hl, hl ▸ le_max_left 0 _, hout, ?_⟩
  intro x _ hx hlt
  rw [hout x]
  rw [hl] at hlt
  rcases le_or_lt (specMean xs - 3 * specStd xs) 0 with hc | hc
  · rw [max_eq_left hc] at hlt
    linarith
  · rw [max_eq_right (le_of_lt hc)] at hlt
    exact not_lt.mpr (by linarith)

theorem c1_witness :
    2 ≤ ([(5 : ℝ), 5] : List ℝ).length ∧
      (ccMean [(5 : ℝ), 5] = some (specMean [(5 : ℝ), 5]) ∧
        ccStd [(5 : ℝ), 5] = some (specStd [(5 : ℝ), 5]) ∧
        ccUcl [(5 : ℝ), 5] = some (specMean [(5 : ℝ), 5] + 3 * specStd [(5 : ℝ), 5]) ∧
        ccLcl [(5 : ℝ), 5] = max 0 (specMean [(5 : ℝ), 5] - 3 * specStd [(5 : ℝ), 5]) ∧
        0 ≤ ccLcl [(5 : ℝ), 5] ∧
        (∀ x : ℝ,
          ccOutlier [(5 : ℝ), 5] x ↔ specMean [(5 : ℝ), 5] + 3 * specStd [(5 : ℝ), 5] < x) ∧
        (∀ x ∈ [(5 : ℝ), 5], 0 ≤ x → x < ccLcl [(5 : ℝ), 5] → ¬ ccOutlier [(5 : ℝ), 5] x)) :=
  ⟨by norm_num, c1_control_chart [5, 5] (by norm_num)⟩

/-- C8 counterexample: on the single-sample series [5] the code does
not fail: it returns the numeric mean 5, a NaN standard deviation, a
NaN UCL, the numeric lower control limit 0 (Python's max(0, nan)), and
flags nothing — there is no InsufficientData error anywhere. -/
theorem c8_counterexample :
    ccMean [(5 : ℝ)] = some 5 ∧ ccStd [(5 : ℝ)] = none ∧ ccUcl [(5 : ℝ)] = none ∧
      ccLcl [(5 : ℝ)] = 0 ∧ ¬ ccOutlier [(5 : ℝ)] 5 := by
  have hm : ccMean [(5 : ℝ)] = some 5 := by
    unfold ccMean
    rw [if_neg (by simp)]
    norm_num
  have hs : ccStd [(5 : ℝ)] = none := by
    unfold ccStd
    rw [if_pos (by norm_num)]
  have hu : ccUcl [(5 : ℝ)] = none := by
    unfold ccUcl
    rw [hm, hs]
  refine ⟨hm, hs, hu, ?_, ?_⟩
  · unfold ccLcl
    rw [hm, hs]
  · unfold ccOutlier
    rw [hu]
    exact not_false

/-- C8 (amended): for every series with fewer than two samples the
computation does not fail with a tagged error; it returns a result in
which the standard deviation and the UCL are NaN (`none`), the lower
control limit is the number 0, and no value is flagged as an
outlier. -/
theorem c8_insufficient_data (xs : List ℝ) (h : xs.length < 2) :
    ccStd xs = none ∧ ccUcl xs = none ∧ ccLcl xs = 0 ∧ ∀ x : ℝ, ¬ ccOutlier xs x := by
  have hs : ccStd xs = none := by
    unfold ccStd
    rw [if_pos h]
  have hu : ccUcl xs = none := by
    unfold ccUcl
    rw [hs]
    cases hcm : ccMean xs <;> rfl
  refine ⟨hs, hu, ?_, ?_⟩
  · unfold ccLcl
    rw [hs]
    cases hcm : ccMean xs <;> rfl
  · intro x
    unfold ccOutlier
    rw [hu]
    exact not_false

theorem c8_witness :
    ([(5 : ℝ)] : List ℝ).length < 2 ∧
      (ccStd [(5 : ℝ)] = none ∧ ccUcl [(5 : ℝ)] = none ∧ ccLcl [(5 : ℝ)] = 0 ∧
        ∀ x : ℝ, ¬ ccOutlier [(5 : ℝ)] x) :=
  ⟨by norm_num, c8_insufficient_data [5] (by norm_num)⟩

end GCS
